import Mathlib

/-!
Shallow embedding of the carousel controller (`src/assets/js/carousel.js`)
and the form-validation module (`src/assets/js/validation.js`) of the
landing-page repository, together with proofs of the specified behavioral
properties.

Strings from the JavaScript side are modelled as `List Char`; JavaScript
numbers that only ever hold integers are modelled as `Int`; the `%`
operator of JavaScript (a truncated remainder) is modelled by `Int.tmod`.
-/

namespace Validation

/-- The set of characters matched by JavaScript `\s` (also the set removed
by `String.prototype.trim`). -/
def jsWhitespace (c : Char) : Bool :=
  let n := c.toNat
  n == 0x9 || n == 0xA || n == 0xB || n == 0xC || n == 0xD || n == 0x20 ||
  n == 0xA0 || n == 0x1680 || (0x2000 ≤ n && n ≤ 0x200A) ||
  n == 0x2028 || n == 0x2029 || n == 0x202F || n == 0x205F || n == 0x3000 ||
  n == 0xFEFF

/-- JavaScript `String.prototype.trim`: strip leading and trailing
whitespace. -/
def jsTrim (l : List Char) : List Char :=
  ((l.dropWhile jsWhitespace).reverse.dropWhile jsWhitespace).reverse

/-- Transition function of a deterministic automaton recognising the email
regex `/^[^\s@]+@[^\s@]+\.[^\s@]+$/` (validation.js line 13).  States:
0 start, 1 inside the local part, 2 just after `@`, 3 inside the domain
before a viable dot, 4 just after a viable dot, 5 accepting, 9 dead. -/
def emailStep (q : Nat) (c : Char) : Nat :=
  if jsWhitespace c then 9
  else match q with
    | 0 => if c == '@' then 9 else 1
    | 1 => if c == '@' then 2 else 1
    | 2 => if c == '@' then 9 else 3
    | 3 => if c == '@' then 9 else if c == '.' then 4 else 3
    | 4 => if c == '@' then 9 else 5
    | 5 => if c == '@' then 9 else 5
    | _ => 9

/-- `EMAIL_REGEX.test` from validation.js: the whole string matches
`^[^\s@]+@[^\s@]+\.[^\s@]+$`. -/
def matchesEmailRegex (l : List Char) : Bool :=
  l.foldl emailStep 0 == 5

/-- Result object `{ isValid, message }` returned by the validators. -/
structure ValidationResult where
  isValid : Bool
  message : String
deriving DecidableEq

/-- `VALIDATION_MESSAGES.required`. -/
def msgRequired : String := "Email address is required"

/-- `VALIDATION_MESSAGES.invalid`. -/
def msgInvalid : String := "Please enter a valid email address"

/-- `VALIDATION_MESSAGES.tooShort`. -/
def msgTooShort : String := "Email address is too short"

/-- `VALIDATION_MESSAGES.tooLong`. -/
def msgTooLong : String := "Email address is too long (max 254 characters)"

/-- `CONSTRAINTS.email.minLength`. -/
def emailMinLength : Nat := 3

/-- `CONSTRAINTS.email.maxLength`. -/
def emailMaxLength : Nat := 254

/-- `validateEmail` (validation.js lines 46-85). -/
def validateEmail (email : List Char) : ValidationResult :=
  if email.isEmpty || (jsTrim email).isEmpty then
    ⟨false, msgRequired⟩
  else
    let trimmedEmail := jsTrim email
    if trimmedEmail.length < emailMinLength then
      ⟨false, msgTooShort⟩
    else if emailMaxLength < trimmedEmail.length then
      ⟨false, msgTooLong⟩
    else if !(matchesEmailRegex trimmedEmail) then
      ⟨false, msgInvalid⟩
    else
      ⟨true, ""⟩

/-- A JavaScript value as far as `sanitizeInput` can distinguish it:
either a string or any non-string value. -/
inductive JSValue where
  | str (s : List Char)
  | nonString
deriving DecidableEq

/-- `sanitizeInput` (validation.js lines 112-121): trim, strip angle
brackets, truncate to the maximum email length. -/
def sanitizeInput (v : JSValue) : List Char :=
  match v with
  | .nonString => []
  | .str s => (((jsTrim s).filter (fun c => !(c == '<' || c == '>'))).take emailMaxLength)

end Validation

namespace Carousel

/-- Navigation direction argument of `navigate` (`'next'` / `'prev'`). -/
inductive Direction where
  | next
  | prev
deriving DecidableEq

/-- JavaScript `%` on integers: truncated remainder. -/
def jsMod (a b : Int) : Int := Int.tmod a b

/-- `config.transitionDuration` (carousel.js line 56). -/
def transitionDuration : Nat := 350

/-- `config.autoRotateDelay` (carousel.js line 55). -/
def autoRotateDelay : Nat := 5000

/-- `config.swipeThreshold` (carousel.js line 57). -/
def swipeThreshold : Nat := 50

/-- `config.dragThreshold` (carousel.js line 58). -/
def dragThreshold : Nat := 50

/-- The mutable state of one `CarouselController` instance together with
the DOM attributes it writes and the host timer facility it uses.

`slideAriaHidden` holds the `aria-hidden` value of each slide,
`slideDescTabindex` the `tabindex` written to the focusable descendants of
each slide, `indicatorSelected` the `aria-selected` value of each
indicator and `indicatorTabindex` its `tabindex`.  `trackOffset` is the
percentage inside `translateX(...%)` on the track.  `activeIntervals`
is the set of interval timers currently scheduled with the host,
`nextTimerId` the next fresh (positive) timer handle, `time` the host
clock and `unlockAt` the pending `setTimeout` that releases the
transition lock. -/
structure CarouselState where
  numSlides : Nat
  numIndicators : Nat
  hasPrevButton : Bool
  hasNextButton : Bool
  currentIndex : Int
  isTransitioning : Bool
  autoRotateInterval : Option Nat
  touchStartX : Int
  touchEndX : Int
  time : Nat
  unlockAt : Option Nat
  activeIntervals : List Nat
  nextTimerId : Nat
  slideAriaHidden : List Bool
  slideDescTabindex : List Int
  indicatorSelected : List Bool
  indicatorTabindex : List Int
  trackOffset : Int
  trackCursor : String
  prevLabel : String
  nextLabel : String
  listenersInstalled : Bool
deriving DecidableEq

/-- `pauseAutoRotate` (carousel.js lines 373-379): cancel the interval if
one is tracked, otherwise do nothing. -/
def pauseAutoRotate (s : CarouselState) : CarouselState :=
  match s.autoRotateInterval with
  | some h => { s with activeIntervals := s.activeIntervals.erase h,
                       autoRotateInterval := none }
  | none => s

/-- `startAutoRotate` (carousel.js lines 360-368): cancel any existing
interval, then schedule a fresh recurring timer. -/
def startAutoRotate (s : CarouselState) : CarouselState :=
  let s1 := pauseAutoRotate s
  { s1 with autoRotateInterval := some s1.nextTimerId,
            activeIntervals := s1.activeIntervals ++ [s1.nextTimerId],
            nextTimerId := s1.nextTimerId + 1 }

/-- `updateIndicators` (carousel.js lines 324-332). -/
def updateIndicators (s : CarouselState) : CarouselState :=
  if s.numIndicators = 0 then s
  else
    { s with
      indicatorSelected :=
        (List.range s.numIndicators).map (fun (i : Nat) => ((i : Int) == s.currentIndex)),
      indicatorTabindex :=
        (List.range s.numIndicators).map
          (fun (i : Nat) => if (i : Int) == s.currentIndex then (0 : Int) else -1) }

/-- `updateAccessibility` (carousel.js lines 337-355). -/
def updateAccessibility (s : CarouselState) : CarouselState :=
  let s1 :=
    { s with
      slideAriaHidden :=
        (List.range s.numSlides).map (fun (i : Nat) => !((i : Int) == s.currentIndex)),
      slideDescTabindex :=
        (List.range s.numSlides).map
          (fun (i : Nat) => if (i : Int) == s.currentIndex then (0 : Int) else -1) }
  if s1.hasPrevButton && s1.hasNextButton then
    let slideText :=
      "Slide " ++ toString (s1.currentIndex + 1) ++ " of " ++ toString s1.numSlides
    { s1 with prevLabel := "Previous template - " ++ slideText,
              nextLabel := "Next template - " ++ slideText }
  else s1

/-- `goToSlide` (carousel.js lines 292-319). -/
def goToSlide (s : CarouselState) (index : Int) : CarouselState :=
  if s.isTransitioning = true ∨ index = s.currentIndex then s
  else if index < 0 ∨ (s.numSlides : Int) ≤ index then s
  else
    let s1 := { s with isTransitioning := true,
                       currentIndex := index,
                       trackOffset := -index * 100 }
    let s2 := updateAccessibility (updateIndicators s1)
    { s2 with unlockAt := some (s.time + transitionDuration) }

/-- `navigate` (carousel.js lines 275-286). -/
def navigate (s : CarouselState) (direction : Direction) : CarouselState :=
  if s.isTransitioning = true then s
  else
    let newIndex :=
      if direction = Direction.next then
        jsMod (s.currentIndex + 1) (s.numSlides : Int)
      else
        jsMod (s.currentIndex - 1 + (s.numSlides : Int)) (s.numSlides : Int)
    goToSlide s newIndex

/-- Advance the host clock by `dt`, delivering the pending transition-lock
release `setTimeout` callback (carousel.js lines 316-318) if its due time
has been reached. -/
def elapse (s : CarouselState) (dt : Nat) : CarouselState :=
  let t := s.time + dt
  match s.unlockAt with
  | some u =>
      if u ≤ t then { s with time := t, isTransitioning := false, unlockAt := none }
      else { s with time := t }
  | none => { s with time := t }

/-- `handleTouchStart` (carousel.js lines 241-244). -/
def handleTouchStart (s : CarouselState) (screenX : Int) : CarouselState :=
  pauseAutoRotate { s with touchStartX := screenX }

/-- `handleTouchMove` (carousel.js lines 250-252). -/
def handleTouchMove (s : CarouselState) (screenX : Int) : CarouselState :=
  { s with touchEndX := screenX }

/-- `handleTouchEnd` (carousel.js lines 257-269). -/
def handleTouchEnd (s : CarouselState) : CarouselState :=
  let diff := s.touchStartX - s.touchEndX
  let s1 :=
    if swipeThreshold < diff.natAbs then
      if 0 < diff then navigate s Direction.next else navigate s Direction.prev
    else s
  startAutoRotate s1

/-- The closure state of `setupMouseDrag` (carousel.js lines 133-169). -/
structure DragState where
  isDragging : Bool
  startX : Int
  currentX : Int
deriving DecidableEq

/-- `setupMouseDrag.handleMouseDown` (carousel.js lines 138-143). -/
def handleMouseDown (d : DragState) (s : CarouselState) (pageX : Int) :
    DragState × CarouselState :=
  (⟨true, pageX, d.currentX⟩,
   pauseAutoRotate { s with trackCursor := "grabbing" })

/-- `setupMouseDrag.handleMouseMove` (carousel.js lines 145-148). -/
def handleMouseMove (d : DragState) (pageX : Int) : DragState :=
  if d.isDragging = true then { d with currentX := pageX } else d

/-- `setupMouseDrag.handleMouseUp` (carousel.js lines 150-164). -/
def handleMouseUp (d : DragState) (s : CarouselState) :
    DragState × CarouselState :=
  if d.isDragging = false then (d, s)
  else
    let d1 := { d with isDragging := false }
    let s1 := { s with trackCursor := "grab" }
    let diff := d.startX - d.currentX
    let s2 :=
      if dragThreshold < diff.natAbs then
        if 0 < diff then navigate s1 Direction.next else navigate s1 Direction.prev
      else s1
    (d1, startAutoRotate s2)

/-- The container structure that the constructor queries from the DOM. -/
structure ContainerInput where
  present : Bool
  hasTrack : Bool
  numSlides : Nat
  numIndicators : Nat
  hasPrevButton : Bool
  hasNextButton : Bool
  disabled : Bool
deriving DecidableEq

/-- Modelled from the spec: the initial `aria-selected` attributes that
the indicator controls carry in the HTML markup (the markup itself is not
part of the repository's source files).  Per the spec, "exactly one
indicator has 'selected' state at all times" and the initial index is 0,
so the first indicator starts selected. -/
def markupIndicatorSelected (n : Nat) : List Bool :=
  (List.range n).map (fun i => i == 0)

/-- Modelled from the spec: the initial `tabindex` attributes of the
indicator controls in the HTML markup; the selected first indicator is
keyboard-focusable, the rest are excluded from tab order. -/
def markupIndicatorTabindex (n : Nat) : List Int :=
  (List.range n).map (fun i => if i == 0 then (0 : Int) else -1)

/-- Modelled from the spec: the initial `aria-hidden` attributes of the
slides in the HTML markup (first slide visible, rest hidden). -/
def markupSlideAriaHidden (n : Nat) : List Bool :=
  (List.range n).map (fun i => !(i == 0))

/-- Modelled from the spec: the initial `tabindex` attributes that the
focusable descendants of each slide carry in the HTML markup. -/
def markupSlideDescTabindex (n : Nat) : List Int :=
  (List.range n).map (fun i => if i == 0 then (0 : Int) else -1)

/-- The state-management fields as the constructor assigns them
(carousel.js lines 45-59), with the DOM-attribute fields holding their
initial markup values. -/
def mkInitialState (inp : ContainerInput) : CarouselState :=
  { numSlides := inp.numSlides
    numIndicators := inp.numIndicators
    hasPrevButton := inp.hasPrevButton
    hasNextButton := inp.hasNextButton
    currentIndex := 0
    isTransitioning := false
    autoRotateInterval := none
    touchStartX := 0
    touchEndX := 0
    time := 0
    unlockAt := none
    activeIntervals := []
    nextTimerId := 1
    slideAriaHidden := markupSlideAriaHidden inp.numSlides
    slideDescTabindex := markupSlideDescTabindex inp.numSlides
    indicatorSelected := markupIndicatorSelected inp.numIndicators
    indicatorTabindex := markupIndicatorTabindex inp.numIndicators
    trackOffset := 0
    trackCursor := "grab"
    prevLabel := ""
    nextLabel := ""
    listenersInstalled := false }

/-- `init` (carousel.js lines 81-91): install the event listeners, start
auto-rotation, synchronise accessibility attributes.  (The intersection
observer only affects lazy image loading and is out of scope.) -/
def initController (s : CarouselState) : CarouselState :=
  updateAccessibility (startAutoRotate { s with listenersInstalled := true })

/-- Outcome of running the constructor (carousel.js lines 27-76). -/
inductive ConstructResult where
  | thrown (msg : String)
  | missingElements
  | disabledInert (s : CarouselState)
  | initialized (s : CarouselState)
deriving DecidableEq

/-- The `CarouselController` constructor (carousel.js lines 27-76). -/
def construct (inp : ContainerInput) : ConstructResult :=
  if inp.present = false then
    ConstructResult.thrown "Carousel container element is required"
  else if inp.hasTrack = false ∨ inp.numSlides = 0 then
    ConstructResult.missingElements
  else
    let s0 := mkInitialState inp
    if inp.disabled = true then ConstructResult.disabledInert s0
    else ConstructResult.initialized (initController s0)

/-- A fully initialized controller over `n` slides, `n` indicators and
both navigation buttons. -/
def initCarousel (n : Nat) : CarouselState :=
  initController (mkInitialState ⟨true, true, n, n, true, true, false⟩)

/-- One spec-level navigation step: a `navigate` call followed by the
transition-duration window elapsing, so that the lock is released again
before the next call. -/
def stepNav (d : Direction) (s : CarouselState) : CarouselState :=
  elapse (navigate s d) transitionDuration


/-- Valid-state predicate of the data model: the current index lies in
`[0, N-1]`. -/
def validIndex (s : CarouselState) : Prop :=
  0 ≤ s.currentIndex ∧ s.currentIndex < (s.numSlides : Int)

/-- Exactly one slide — the one at the current index — is visible to
assistive technology (`aria-hidden` false) and keyboard-reachable, all
others hidden and excluded from tab order. -/
def slidesSynced (s : CarouselState) : Prop :=
  s.slideAriaHidden.length = s.numSlides ∧
  s.slideDescTabindex.length = s.numSlides ∧
  (∀ i, i < s.numSlides →
      (s.slideAriaHidden[i]? = some false ↔ (i : Int) = s.currentIndex)) ∧
  (∀ i, i < s.numSlides →
      s.slideDescTabindex[i]?
        = some (if (i : Int) = s.currentIndex then (0 : Int) else -1))

/-- Exactly one indicator — the one at the current index — is selected
(`aria-selected` true) and keyboard-focusable (`tabindex` 0), all others
unselected with `tabindex` -1. -/
def indicatorsSynced (s : CarouselState) : Prop :=
  s.indicatorSelected.length = s.numIndicators ∧
  s.indicatorTabindex.length = s.numIndicators ∧
  (∀ i, i < s.numIndicators →
      (s.indicatorSelected[i]? = some true ↔ (i : Int) = s.currentIndex)) ∧
  (∀ i, i < s.numIndicators →
      s.indicatorTabindex[i]?
        = some (if (i : Int) = s.currentIndex then (0 : Int) else -1))

/-- At most one live auto-rotate interval: the timers scheduled with the
host are exactly the one tracked in `autoRotateInterval`. -/
def wellTimed (s : CarouselState) : Prop :=
  s.activeIntervals = s.autoRotateInterval.toList

end Carousel



namespace Carousel

theorem updateIndicators_numSlides (s : CarouselState) :
    (updateIndicators s).numSlides = s.numSlides := by
  unfold updateIndicators; split <;> rfl

theorem updateIndicators_numIndicators (s : CarouselState) :
    (updateIndicators s).numIndicators = s.numIndicators := by
  unfold updateIndicators; split <;> rfl

theorem updateIndicators_currentIndex (s : CarouselState) :
    (updateIndicators s).currentIndex = s.currentIndex := by
  unfold updateIndicators; split <;> rfl

theorem updateIndicators_isTransitioning (s : CarouselState) :
    (updateIndicators s).isTransitioning = s.isTransitioning := by
  unfold updateIndicators; split <;> rfl

theorem updateIndicators_time (s : CarouselState) :
    (updateIndicators s).time = s.time := by
  unfold updateIndicators; split <;> rfl

theorem updateIndicators_unlockAt (s : CarouselState) :
    (updateIndicators s).unlockAt = s.unlockAt := by
  unfold updateIndicators; split <;> rfl

theorem updateIndicators_trackOffset (s : CarouselState) :
    (updateIndicators s).trackOffset = s.trackOffset := by
  unfold updateIndicators; split <;> rfl

theorem updateIndicators_slideAriaHidden (s : CarouselState) :
    (updateIndicators s).slideAriaHidden = s.slideAriaHidden := by
  unfold updateIndicators; split <;> rfl

theorem updateIndicators_slideDescTabindex (s : CarouselState) :
    (updateIndicators s).slideDescTabindex = s.slideDescTabindex := by
  unfold updateIndicators; split <;> rfl

theorem updateAccessibility_numSlides (s : CarouselState) :
    (updateAccessibility s).numSlides = s.numSlides := by
  unfold updateAccessibility; dsimp only; split <;> rfl

theorem updateAccessibility_numIndicators (s : CarouselState) :
    (updateAccessibility s).numIndicators = s.numIndicators := by
  unfold updateAccessibility; dsimp only; split <;> rfl

theorem updateAccessibility_currentIndex (s : CarouselState) :
    (updateAccessibility s).currentIndex = s.currentIndex := by
  unfold updateAccessibility; dsimp only; split <;> rfl

theorem updateAccessibility_isTransitioning (s : CarouselState) :
    (updateAccessibility s).isTransitioning = s.isTransitioning := by
  unfold updateAccessibility; dsimp only; split <;> rfl

theorem updateAccessibility_time (s : CarouselState) :
    (updateAccessibility s).time = s.time := by
  unfold updateAccessibility; dsimp only; split <;> rfl

theorem updateAccessibility_unlockAt (s : CarouselState) :
    (updateAccessibility s).unlockAt = s.unlockAt := by
  unfold updateAccessibility; dsimp only; split <;> rfl

theorem updateAccessibility_trackOffset (s : CarouselState) :
    (updateAccessibility s).trackOffset = s.trackOffset := by
  unfold updateAccessibility; dsimp only; split <;> rfl

theorem updateAccessibility_indicatorSelected (s : CarouselState) :
    (updateAccessibility s).indicatorSelected = s.indicatorSelected := by
  unfold updateAccessibility; dsimp only; split <;> rfl

theorem updateAccessibility_indicatorTabindex (s : CarouselState) :
    (updateAccessibility s).indicatorTabindex = s.indicatorTabindex := by
  unfold updateAccessibility; dsimp only; split <;> rfl

theorem updateAccessibility_slideAriaHidden (s : CarouselState) :
    (updateAccessibility s).slideAriaHidden
      = (List.range s.numSlides).map (fun (i : Nat) => !((i : Int) == s.currentIndex)) := by
  unfold updateAccessibility; dsimp only; split <;> rfl

theorem updateAccessibility_slideDescTabindex (s : CarouselState) :
    (updateAccessibility s).slideDescTabindex
      = (List.range s.numSlides).map
          (fun (i : Nat) => if (i : Int) == s.currentIndex then (0 : Int) else -1) := by
  unfold updateAccessibility; dsimp only; split <;> rfl

theorem updateIndicators_indicatorSelected (s : CarouselState)
    (h : s.numIndicators ≠ 0) :
    (updateIndicators s).indicatorSelected
      = (List.range s.numIndicators).map (fun (i : Nat) => ((i : Int) == s.currentIndex)) := by
  unfold updateIndicators; rw [if_neg h]

theorem updateIndicators_indicatorTabindex (s : CarouselState)
    (h : s.numIndicators ≠ 0) :
    (updateIndicators s).indicatorTabindex
      = (List.range s.numIndicators).map
          (fun (i : Nat) => if (i : Int) == s.currentIndex then (0 : Int) else -1) := by
  unfold updateIndicators; rw [if_neg h]

end Carousel

namespace Carousel

theorem goToSlide_locked (s : CarouselState) (i : Int)
    (h : s.isTransitioning = true) : goToSlide s i = s := by
  unfold goToSlide; rw [if_pos (Or.inl h)]

theorem goToSlide_same (s : CarouselState) (i : Int)
    (h : i = s.currentIndex) : goToSlide s i = s := by
  unfold goToSlide; rw [if_pos (Or.inr h)]

theorem goToSlide_invalid (s : CarouselState) (i : Int)
    (h : i < 0 ∨ (s.numSlides : Int) ≤ i) : goToSlide s i = s := by
  unfold goToSlide
  by_cases h1 : s.isTransitioning = true ∨ i = s.currentIndex
  · rw [if_pos h1]
  · rw [if_neg h1, if_pos h]

theorem goToSlide_success (s : CarouselState) (i : Int)
    (hT : s.isTransitioning = false) (hne : i ≠ s.currentIndex)
    (h0 : 0 ≤ i) (hlt : i < (s.numSlides : Int)) :
    goToSlide s i
      = { updateAccessibility (updateIndicators
            { s with isTransitioning := true, currentIndex := i,
                     trackOffset := -i * 100 }) with
          unlockAt := some (s.time + transitionDuration) } := by
  unfold goToSlide
  rw [if_neg, if_neg]
  · omega
  · rw [hT]; simp [hne]

theorem navigate_locked (s : CarouselState) (d : Direction)
    (h : s.isTransitioning = true) : navigate s d = s := by
  unfold navigate; rw [if_pos h]

theorem navigate_unlocked (s : CarouselState) (d : Direction)
    (h : s.isTransitioning = false) :
    navigate s d = goToSlide s
      (if d = Direction.next then jsMod (s.currentIndex + 1) (s.numSlides : Int)
       else jsMod (s.currentIndex - 1 + (s.numSlides : Int)) (s.numSlides : Int)) := by
  unfold navigate
  rw [if_neg (by rw [h]; simp)]

theorem elapse_none (s : CarouselState) (dt : Nat) (h : s.unlockAt = none) :
    elapse s dt = { s with time := s.time + dt } := by
  unfold elapse; rw [h]

theorem elapse_fire (s : CarouselState) (dt : Nat) (u : Nat)
    (h : s.unlockAt = some u) (hle : u ≤ s.time + dt) :
    elapse s dt
      = { s with time := s.time + dt, isTransitioning := false, unlockAt := none } := by
  unfold elapse; rw [h]; dsimp only; rw [if_pos hle]

theorem elapse_nofire (s : CarouselState) (dt : Nat) (u : Nat)
    (h : s.unlockAt = some u) (hgt : s.time + dt < u) :
    elapse s dt = { s with time := s.time + dt } := by
  unfold elapse; rw [h]; dsimp only; rw [if_neg (by omega)]

theorem pauseAutoRotate_none (s : CarouselState)
    (h : s.autoRotateInterval = none) : pauseAutoRotate s = s := by
  unfold pauseAutoRotate; rw [h]

end Carousel

namespace Carousel

theorem pauseAutoRotate_numSlides (s : CarouselState) :
    (pauseAutoRotate s).numSlides = s.numSlides := by
  unfold pauseAutoRotate; cases s.autoRotateInterval <;> rfl

theorem pauseAutoRotate_numIndicators (s : CarouselState) :
    (pauseAutoRotate s).numIndicators = s.numIndicators := by
  unfold pauseAutoRotate; cases s.autoRotateInterval <;> rfl

theorem pauseAutoRotate_hasPrevButton (s : CarouselState) :
    (pauseAutoRotate s).hasPrevButton = s.hasPrevButton := by
  unfold pauseAutoRotate; cases s.autoRotateInterval <;> rfl

theorem pauseAutoRotate_hasNextButton (s : CarouselState) :
    (pauseAutoRotate s).hasNextButton = s.hasNextButton := by
  unfold pauseAutoRotate; cases s.autoRotateInterval <;> rfl

theorem pauseAutoRotate_currentIndex (s : CarouselState) :
    (pauseAutoRotate s).currentIndex = s.currentIndex := by
  unfold pauseAutoRotate; cases s.autoRotateInterval <;> rfl

theorem pauseAutoRotate_isTransitioning (s : CarouselState) :
    (pauseAutoRotate s).isTransitioning = s.isTransitioning := by
  unfold pauseAutoRotate; cases s.autoRotateInterval <;> rfl

theorem pauseAutoRotate_touchStartX (s : CarouselState) :
    (pauseAutoRotate s).touchStartX = s.touchStartX := by
  unfold pauseAutoRotate; cases s.autoRotateInterval <;> rfl

theorem pauseAutoRotate_touchEndX (s : CarouselState) :
    (pauseAutoRotate s).touchEndX = s.touchEndX := by
  unfold pauseAutoRotate; cases s.autoRotateInterval <;> rfl

theorem pauseAutoRotate_time (s : CarouselState) :
    (pauseAutoRotate s).time = s.time := by
  unfold pauseAutoRotate; cases s.autoRotateInterval <;> rfl

theorem pauseAutoRotate_unlockAt (s : CarouselState) :
    (pauseAutoRotate s).unlockAt = s.unlockAt := by
  unfold pauseAutoRotate; cases s.autoRotateInterval <;> rfl

theorem pauseAutoRotate_slideAriaHidden (s : CarouselState) :
    (pauseAutoRotate s).slideAriaHidden = s.slideAriaHidden := by
  unfold pauseAutoRotate; cases s.autoRotateInterval <;> rfl

theorem pauseAutoRotate_slideDescTabindex (s : CarouselState) :
    (pauseAutoRotate s).slideDescTabindex = s.slideDescTabindex := by
  unfold pauseAutoRotate; cases s.autoRotateInterval <;> rfl

theorem pauseAutoRotate_indicatorSelected (s : CarouselState) :
    (pauseAutoRotate s).indicatorSelected = s.indicatorSelected := by
  unfold pauseAutoRotate; cases s.autoRotateInterval <;> rfl

theorem pauseAutoRotate_indicatorTabindex (s : CarouselState) :
    (pauseAutoRotate s).indicatorTabindex = s.indicatorTabindex := by
  unfold pauseAutoRotate; cases s.autoRotateInterval <;> rfl

theorem pauseAutoRotate_trackOffset (s : CarouselState) :
    (pauseAutoRotate s).trackOffset = s.trackOffset := by
  unfold pauseAutoRotate; cases s.autoRotateInterval <;> rfl

theorem pauseAutoRotate_trackCursor (s : CarouselState) :
    (pauseAutoRotate s).trackCursor = s.trackCursor := by
  unfold pauseAutoRotate; cases s.autoRotateInterval <;> rfl

theorem pauseAutoRotate_prevLabel (s : CarouselState) :
    (pauseAutoRotate s).prevLabel = s.prevLabel := by
  unfold pauseAutoRotate; cases s.autoRotateInterval <;> rfl

theorem pauseAutoRotate_nextLabel (s : CarouselState) :
    (pauseAutoRotate s).nextLabel = s.nextLabel := by
  unfold pauseAutoRotate; cases s.autoRotateInterval <;> rfl

theorem pauseAutoRotate_listenersInstalled (s : CarouselState) :
    (pauseAutoRotate s).listenersInstalled = s.listenersInstalled := by
  unfold pauseAutoRotate; cases s.autoRotateInterval <;> rfl

theorem startAutoRotate_numSlides (s : CarouselState) :
    (startAutoRotate s).numSlides = s.numSlides := by
  unfold startAutoRotate; dsimp only; rw [pauseAutoRotate_numSlides]

theorem startAutoRotate_numIndicators (s : CarouselState) :
    (startAutoRotate s).numIndicators = s.numIndicators := by
  unfold startAutoRotate; dsimp only; rw [pauseAutoRotate_numIndicators]

theorem startAutoRotate_hasPrevButton (s : CarouselState) :
    (startAutoRotate s).hasPrevButton = s.hasPrevButton := by
  unfold startAutoRotate; dsimp only; rw [pauseAutoRotate_hasPrevButton]

theorem startAutoRotate_hasNextButton (s : CarouselState) :
    (startAutoRotate s).hasNextButton = s.hasNextButton := by
  unfold startAutoRotate; dsimp only; rw [pauseAutoRotate_hasNextButton]

theorem startAutoRotate_currentIndex (s : CarouselState) :
    (startAutoRotate s).currentIndex = s.currentIndex := by
  unfold startAutoRotate; dsimp only; rw [pauseAutoRotate_currentIndex]

theorem startAutoRotate_isTransitioning (s : CarouselState) :
    (startAutoRotate s).isTransitioning = s.isTransitioning := by
  unfold startAutoRotate; dsimp only; rw [pauseAutoRotate_isTransitioning]

theorem startAutoRotate_touchStartX (s : CarouselState) :
    (startAutoRotate s).touchStartX = s.touchStartX := by
  unfold startAutoRotate; dsimp only; rw [pauseAutoRotate_touchStartX]

theorem startAutoRotate_touchEndX (s : CarouselState) :
    (startAutoRotate s).touchEndX = s.touchEndX := by
  unfold startAutoRotate; dsimp only; rw [pauseAutoRotate_touchEndX]

theorem startAutoRotate_time (s : CarouselState) :
    (startAutoRotate s).time = s.time := by
  unfold startAutoRotate; dsimp only; rw [pauseAutoRotate_time]

theorem startAutoRotate_unlockAt (s : CarouselState) :
    (startAutoRotate s).unlockAt = s.unlockAt := by
  unfold startAutoRotate; dsimp only; rw [pauseAutoRotate_unlockAt]

theorem startAutoRotate_slideAriaHidden (s : CarouselState) :
    (startAutoRotate s).slideAriaHidden = s.slideAriaHidden := by
  unfold startAutoRotate; dsimp only; rw [pauseAutoRotate_slideAriaHidden]

theorem startAutoRotate_slideDescTabindex (s : CarouselState) :
    (startAutoRotate s).slideDescTabindex = s.slideDescTabindex := by
  unfold startAutoRotate; dsimp only; rw [pauseAutoRotate_slideDescTabindex]

theorem startAutoRotate_indicatorSelected (s : CarouselState) :
    (startAutoRotate s).indicatorSelected = s.indicatorSelected := by
  unfold startAutoRotate; dsimp only; rw [pauseAutoRotate_indicatorSelected]

theorem startAutoRotate_indicatorTabindex (s : CarouselState) :
    (startAutoRotate s).indicatorTabindex = s.indicatorTabindex := by
  unfold startAutoRotate; dsimp only; rw [pauseAutoRotate_indicatorTabindex]

theorem startAutoRotate_trackOffset (s : CarouselState) :
    (startAutoRotate s).trackOffset = s.trackOffset := by
  unfold startAutoRotate; dsimp only; rw [pauseAutoRotate_trackOffset]

theorem startAutoRotate_trackCursor (s : CarouselState) :
    (startAutoRotate s).trackCursor = s.trackCursor := by
  unfold startAutoRotate; dsimp only; rw [pauseAutoRotate_trackCursor]

theorem startAutoRotate_prevLabel (s : CarouselState) :
    (startAutoRotate s).prevLabel = s.prevLabel := by
  unfold startAutoRotate; dsimp only; rw [pauseAutoRotate_prevLabel]

theorem startAutoRotate_nextLabel (s : CarouselState) :
    (startAutoRotate s).nextLabel = s.nextLabel := by
  unfold startAutoRotate; dsimp only; rw [pauseAutoRotate_nextLabel]

theorem startAutoRotate_listenersInstalled (s : CarouselState) :
    (startAutoRotate s).listenersInstalled = s.listenersInstalled := by
  unfold startAutoRotate; dsimp only; rw [pauseAutoRotate_listenersInstalled]

end Carousel

namespace Carousel

theorem goToSlide_success_fields (s : CarouselState) (i : Int)
    (hT : s.isTransitioning = false) (hne : i ≠ s.currentIndex)
    (h0 : 0 ≤ i) (hlt : i < (s.numSlides : Int)) :
    (goToSlide s i).currentIndex = i ∧
    (goToSlide s i).isTransitioning = true ∧
    (goToSlide s i).numSlides = s.numSlides ∧
    (goToSlide s i).numIndicators = s.numIndicators ∧
    (goToSlide s i).time = s.time ∧
    (goToSlide s i).unlockAt = some (s.time + transitionDuration) ∧
    (goToSlide s i).trackOffset = -i * 100 := by
  rw [goToSlide_success s i hT hne h0 hlt]
  refine ⟨?_, ?_, ?_, ?_, ?_, rfl, ?_⟩ <;>
    simp [updateAccessibility_currentIndex, updateIndicators_currentIndex,
          updateAccessibility_isTransitioning, updateIndicators_isTransitioning,
          updateAccessibility_numSlides, updateIndicators_numSlides,
          updateAccessibility_numIndicators, updateIndicators_numIndicators,
          updateAccessibility_time, updateIndicators_time,
          updateAccessibility_trackOffset, updateIndicators_trackOffset]

theorem elapse_currentIndex (s : CarouselState) (dt : Nat) :
    (elapse s dt).currentIndex = s.currentIndex := by
  unfold elapse; cases s.unlockAt
  · rfl
  · dsimp only; split <;> rfl

theorem elapse_numSlides (s : CarouselState) (dt : Nat) :
    (elapse s dt).numSlides = s.numSlides := by
  unfold elapse; cases s.unlockAt
  · rfl
  · dsimp only; split <;> rfl

theorem elapse_isTransitioning_false (s : CarouselState) (dt : Nat)
    (h : s.isTransitioning = false) :
    (elapse s dt).isTransitioning = false := by
  unfold elapse; cases s.unlockAt
  · exact h
  · dsimp only; split
    · rfl
    · exact h

theorem goToSlide_then_elapse (s : CarouselState) (j : Int)
    (hT : s.isTransitioning = false) (hne : j ≠ s.currentIndex)
    (h0 : 0 ≤ j) (hlt : j < (s.numSlides : Int)) :
    (elapse (goToSlide s j) transitionDuration).currentIndex = j ∧
    (elapse (goToSlide s j) transitionDuration).isTransitioning = false ∧
    (elapse (goToSlide s j) transitionDuration).numSlides = s.numSlides := by
  obtain ⟨h1, _, h3, _, h5, h6, _⟩ := goToSlide_success_fields s j hT hne h0 hlt
  rw [elapse_fire (goToSlide s j) transitionDuration (s.time + transitionDuration) h6
        (by rw [h5])]
  exact ⟨h1, rfl, h3⟩

theorem stepNav_fields (s : CarouselState) (d : Direction)
    (hT : s.isTransitioning = false)
    (h0 : 0 ≤ s.currentIndex) (hlt : s.currentIndex < (s.numSlides : Int)) :
    (stepNav d s).currentIndex
        = (if d = Direction.next then (s.currentIndex + 1) % (s.numSlides : Int)
           else (s.currentIndex - 1 + (s.numSlides : Int)) % (s.numSlides : Int)) ∧
    (stepNav d s).isTransitioning = false ∧
    (stepNav d s).numSlides = s.numSlides := by
  have hNpos : (0 : Int) < (s.numSlides : Int) := lt_of_le_of_lt h0 hlt
  have hj_eq :
      (if d = Direction.next then jsMod (s.currentIndex + 1) (s.numSlides : Int)
       else jsMod (s.currentIndex - 1 + (s.numSlides : Int)) (s.numSlides : Int))
      = (if d = Direction.next then (s.currentIndex + 1) % (s.numSlides : Int)
         else (s.currentIndex - 1 + (s.numSlides : Int)) % (s.numSlides : Int)) := by
    cases d <;> simp only [jsMod] <;> exact Int.tmod_eq_emod (by omega) (by omega)
  unfold stepNav
  rw [navigate_unlocked s d hT, hj_eq]
  set j := (if d = Direction.next then (s.currentIndex + 1) % (s.numSlides : Int)
            else (s.currentIndex - 1 + (s.numSlides : Int)) % (s.numSlides : Int)) with hjdef
  have hj0 : 0 ≤ j := by
    rw [hjdef]; split <;> exact Int.emod_nonneg _ (by omega)
  have hjlt : j < (s.numSlides : Int) := by
    rw [hjdef]; split <;> exact Int.emod_lt_of_pos _ hNpos
  by_cases hji : j = s.currentIndex
  · rw [goToSlide_same _ _ hji]
    exact ⟨(elapse_currentIndex _ _).trans hji.symm,
           elapse_isTransitioning_false _ _ hT, elapse_numSlides _ _⟩
  · exact goToSlide_then_elapse s j hT hji hj0 hjlt

theorem initCarousel_currentIndex (n : Nat) : (initCarousel n).currentIndex = 0 := rfl

theorem initCarousel_isTransitioning (n : Nat) :
    (initCarousel n).isTransitioning = false := rfl

theorem initCarousel_numSlides (n : Nat) : (initCarousel n).numSlides = n := rfl

end Carousel

namespace Carousel

theorem iterNext_fields (N k : Nat) (hN : 1 ≤ N) :
    ((stepNav Direction.next)^[k] (initCarousel N)).currentIndex = (k : Int) % (N : Int) ∧
    ((stepNav Direction.next)^[k] (initCarousel N)).isTransitioning = false ∧
    ((stepNav Direction.next)^[k] (initCarousel N)).numSlides = N := by
  have hN' : (0 : Int) < (N : Int) := by exact_mod_cast hN
  induction k with
  | zero =>
      rw [Function.iterate_zero_apply]
      refine ⟨?_, initCarousel_isTransitioning N, initCarousel_numSlides N⟩
      rw [initCarousel_currentIndex]
      simp
  | succ k ih =>
      obtain ⟨h1, h2, h3⟩ := ih
      rw [Function.iterate_succ_apply']
      have h0 : 0 ≤ ((stepNav Direction.next)^[k] (initCarousel N)).currentIndex := by
        rw [h1]; exact Int.emod_nonneg _ (ne_of_gt hN')
      have hlt : ((stepNav Direction.next)^[k] (initCarousel N)).currentIndex
          < (((stepNav Direction.next)^[k] (initCarousel N)).numSlides : Int) := by
        rw [h1, h3]; exact Int.emod_lt_of_pos _ hN'
      obtain ⟨g1, g2, g3⟩ := stepNav_fields _ Direction.next h2 h0 hlt
      refine ⟨?_, g2, by rw [g3, h3]⟩
      rw [g1, if_pos rfl, h1, h3, Int.emod_add_emod]
      push_cast
      rfl
  
theorem iterPrev_fields (N k : Nat) (hN : 1 ≤ N) :
    ((stepNav Direction.prev)^[k] (initCarousel N)).currentIndex = (-(k : Int)) % (N : Int) ∧
    ((stepNav Direction.prev)^[k] (initCarousel N)).isTransitioning = false ∧
    ((stepNav Direction.prev)^[k] (initCarousel N)).numSlides = N := by
  have hN' : (0 : Int) < (N : Int) := by exact_mod_cast hN
  induction k with
  | zero =>
      rw [Function.iterate_zero_apply]
      refine ⟨?_, initCarousel_isTransitioning N, initCarousel_numSlides N⟩
      rw [initCarousel_currentIndex]
      simp
  | succ k ih =>
      obtain ⟨h1, h2, h3⟩ := ih
      rw [Function.iterate_succ_apply']
      have h0 : 0 ≤ ((stepNav Direction.prev)^[k] (initCarousel N)).currentIndex := by
        rw [h1]; exact Int.emod_nonneg _ (ne_of_gt hN')
      have hlt : ((stepNav Direction.prev)^[k] (initCarousel N)).currentIndex
          < (((stepNav Direction.prev)^[k] (initCarousel N)).numSlides : Int) := by
        rw [h1, h3]; exact Int.emod_lt_of_pos _ hN'
      obtain ⟨g1, g2, g3⟩ := stepNav_fields _ Direction.prev h2 h0 hlt
      refine ⟨?_, g2, by rw [g3, h3]⟩
      rw [g1, if_neg (by simp), h1, h3]
      have e1 : (-(k : Int)) % (N : Int) - 1 + (N : Int)
              = (-(k : Int)) % (N : Int) + ((N : Int) - 1) := by ring
      rw [e1, Int.emod_add_emod,
          show (-(k : Int) + ((N : Int) - 1)) = (-((k : Int) + 1) + (N : Int) * 1) by ring,
          Int.add_mul_emod_self_left]
      push_cast
      rfl

end Carousel

namespace Carousel

theorem navigate_lock_acquired (s : CarouselState) (d : Direction)
    (hT : s.isTransitioning = false) (hA : (navigate s d).isTransitioning = true) :
    (navigate s d).unlockAt = some (s.time + transitionDuration) ∧
    (navigate s d).time = s.time := by
  rw [navigate_unlocked s d hT] at hA ⊢
  set j := (if d = Direction.next then jsMod (s.currentIndex + 1) (s.numSlides : Int)
            else jsMod (s.currentIndex - 1 + (s.numSlides : Int)) (s.numSlides : Int))
    with hjdef
  by_cases hsame : j = s.currentIndex
  · rw [goToSlide_same _ _ hsame, hT] at hA; cases hA
  · by_cases hinv : j < 0 ∨ (s.numSlides : Int) ≤ j
    · rw [goToSlide_invalid _ _ hinv, hT] at hA; cases hA
    · push_neg at hinv
      obtain ⟨_, _, _, _, h5, h6, _⟩ :=
        goToSlide_success_fields s j hT hsame hinv.1 hinv.2
      exact ⟨h6, h5⟩

theorem slidesSynced_updateAccessibility (s : CarouselState) :
    slidesSynced (updateAccessibility s) := by
  unfold slidesSynced
  simp only [updateAccessibility_slideAriaHidden, updateAccessibility_slideDescTabindex,
             updateAccessibility_numSlides, updateAccessibility_currentIndex]
  refine ⟨by simp, by simp, ?_, ?_⟩
  · intro i hi
    simp [List.getElem?_map, List.getElem?_range, hi]
  · intro i hi
    simp [List.getElem?_map, List.getElem?_range, hi]

theorem indicatorsSynced_updateIndicators (s : CarouselState)
    (hnz : s.numIndicators ≠ 0) :
    indicatorsSynced (updateIndicators s) := by
  unfold indicatorsSynced
  simp only [updateIndicators_indicatorSelected s hnz,
             updateIndicators_indicatorTabindex s hnz,
             updateIndicators_numIndicators, updateIndicators_currentIndex]
  refine ⟨by simp, by simp, ?_, ?_⟩
  · intro i hi
    simp [List.getElem?_map, List.getElem?_range, hi]
  · intro i hi
    simp [List.getElem?_map, List.getElem?_range, hi]

theorem indicatorsSynced_updateAccessibility (s : CarouselState)
    (h : indicatorsSynced s) : indicatorsSynced (updateAccessibility s) := by
  unfold indicatorsSynced at h ⊢
  simp only [updateAccessibility_indicatorSelected,
             updateAccessibility_indicatorTabindex,
             updateAccessibility_numIndicators, updateAccessibility_currentIndex]
  exact h

theorem slidesSynced_updateIndicators (s : CarouselState)
    (h : slidesSynced s) : slidesSynced (updateIndicators s) := by
  unfold slidesSynced at h ⊢
  simp only [updateIndicators_slideAriaHidden, updateIndicators_slideDescTabindex,
             updateIndicators_numSlides, updateIndicators_currentIndex]
  exact h

end Carousel

namespace Carousel

theorem synced_goToSlide (s : CarouselState) (i : Int)
    (hnum : s.numIndicators = s.numSlides)
    (hv : validIndex s) (hs : slidesSynced s) (hi : indicatorsSynced s) :
    validIndex (goToSlide s i) ∧ slidesSynced (goToSlide s i) ∧
    indicatorsSynced (goToSlide s i) := by
  by_cases h1 : s.isTransitioning = true ∨ i = s.currentIndex
  · have : goToSlide s i = s := by unfold goToSlide; rw [if_pos h1]
    rw [this]; exact ⟨hv, hs, hi⟩
  · push_neg at h1
    by_cases h2 : i < 0 ∨ (s.numSlides : Int) ≤ i
    · rw [goToSlide_invalid s i h2]; exact ⟨hv, hs, hi⟩
    · push_neg at h2
      have hT : s.isTransitioning = false := by
        cases hb : s.isTransitioning
        · rfl
        · exact absurd hb h1.1
      rw [goToSlide_success s i hT h1.2 h2.1 h2.2]
      have hNpos : 0 < s.numSlides := by
        by_contra hc
        have : s.numSlides = 0 := by omega
        rw [this] at h2
        omega
      refine ⟨?_, ?_, ?_⟩
      · unfold validIndex
        have hc : ({ updateAccessibility (updateIndicators
            { s with isTransitioning := true, currentIndex := i,
                     trackOffset := -i * 100 }) with
            unlockAt := some (s.time + transitionDuration) } :
              CarouselState).currentIndex = i := by
          simp [updateAccessibility_currentIndex, updateIndicators_currentIndex]
        have hn : ({ updateAccessibility (updateIndicators
            { s with isTransitioning := true, currentIndex := i,
                     trackOffset := -i * 100 }) with
            unlockAt := some (s.time + transitionDuration) } :
              CarouselState).numSlides = s.numSlides := by
          simp [updateAccessibility_numSlides, updateIndicators_numSlides]
        rw [hc, hn]
        exact h2
      · exact slidesSynced_updateAccessibility _
      · exact indicatorsSynced_updateAccessibility _
          (indicatorsSynced_updateIndicators _
            (by show s.numIndicators ≠ 0; omega))

theorem synced_navigate (s : CarouselState) (d : Direction)
    (hnum : s.numIndicators = s.numSlides)
    (hv : validIndex s) (hs : slidesSynced s) (hi : indicatorsSynced s) :
    validIndex (navigate s d) ∧ slidesSynced (navigate s d) ∧
    indicatorsSynced (navigate s d) := by
  cases hb : s.isTransitioning
  · rw [navigate_unlocked s d hb]
    exact synced_goToSlide s _ hnum hv hs hi
  · rw [navigate_locked s d hb]
    exact ⟨hv, hs, hi⟩

end Carousel

namespace Carousel

theorem construct_initialized_inv (inp : ContainerInput) (s0 : CarouselState)
    (h : construct inp = ConstructResult.initialized s0) :
    inp.present = true ∧ inp.hasTrack = true ∧ inp.numSlides ≠ 0 ∧
    inp.disabled = false ∧ s0 = initController (mkInitialState inp) := by
  unfold construct at h
  by_cases h1 : inp.present = false
  · rw [if_pos h1] at h; cases h
  · rw [if_neg h1] at h
    by_cases h2 : inp.hasTrack = false ∨ inp.numSlides = 0
    · rw [if_pos h2] at h; cases h
    · rw [if_neg h2] at h
      push_neg at h2
      by_cases h3 : inp.disabled = true
      · rw [if_pos h3] at h; cases h
      · rw [if_neg h3] at h
        injection h with h4
        refine ⟨?_, ?_, h2.2, ?_, h4.symm⟩
        · cases hb : inp.present
          · exact absurd hb h1
          · rfl
        · cases hb : inp.hasTrack
          · exact absurd hb h2.1
          · rfl
        · cases hb : inp.disabled
          · rfl
          · exact absurd hb h3

theorem initController_currentIndex (s : CarouselState) :
    (initController s).currentIndex = s.currentIndex := by
  unfold initController
  rw [updateAccessibility_currentIndex, startAutoRotate_currentIndex]

theorem initController_numSlides (s : CarouselState) :
    (initController s).numSlides = s.numSlides := by
  unfold initController
  rw [updateAccessibility_numSlides, startAutoRotate_numSlides]

theorem indicatorsSynced_initController (inp : ContainerInput) :
    indicatorsSynced (initController (mkInitialState inp)) := by
  apply indicatorsSynced_updateAccessibility
  unfold indicatorsSynced
  simp only [startAutoRotate_indicatorSelected, startAutoRotate_indicatorTabindex,
             startAutoRotate_numIndicators, startAutoRotate_currentIndex]
  unfold mkInitialState markupIndicatorSelected markupIndicatorTabindex
  dsimp only
  refine ⟨by simp, by simp, ?_, ?_⟩
  · intro i hi
    simp [List.getElem?_map, List.getElem?_range, hi]
  · intro i hi
    simp [List.getElem?_map, List.getElem?_range, hi]

theorem pauseAutoRotate_autoRotateInterval (s : CarouselState) :
    (pauseAutoRotate s).autoRotateInterval = none := by
  unfold pauseAutoRotate
  cases h : s.autoRotateInterval
  · exact h
  · rfl

theorem pauseAutoRotate_cleared (s : CarouselState) (h : wellTimed s) :
    (pauseAutoRotate s).activeIntervals = [] := by
  unfold wellTimed at h
  unfold pauseAutoRotate
  cases ho : s.autoRotateInterval
  · rw [ho] at h; exact h
  · show s.activeIntervals.erase _ = []
    rw [ho] at h; rw [h]
    simp

theorem pauseAutoRotate_wellTimed (s : CarouselState) (h : wellTimed s) :
    wellTimed (pauseAutoRotate s) := by
  unfold wellTimed
  rw [pauseAutoRotate_cleared s h, pauseAutoRotate_autoRotateInterval]
  rfl

theorem pauseAutoRotate_idem (s : CarouselState) :
    pauseAutoRotate (pauseAutoRotate s) = pauseAutoRotate s :=
  pauseAutoRotate_none _ (pauseAutoRotate_autoRotateInterval s)

theorem startAutoRotate_wellTimed (s : CarouselState) (h : wellTimed s) :
    wellTimed (startAutoRotate s) ∧
    (startAutoRotate s).activeIntervals.length = 1 := by
  unfold startAutoRotate wellTimed
  dsimp only
  rw [pauseAutoRotate_cleared s h]
  exact ⟨rfl, rfl⟩

end Carousel

namespace Validation

theorem emailStep_dead (c : Char) : emailStep 9 c = 9 := by
  unfold emailStep
  split <;> rfl

theorem foldl_emailStep_dead (l : List Char) : l.foldl emailStep 9 = 9 := by
  induction l with
  | nil => rfl
  | cons c rest ih => rw [List.foldl_cons, emailStep_dead]; exact ih

theorem emailStep_ws (q : Nat) (c : Char) (h : jsWhitespace c = true) :
    emailStep q c = 9 := by
  unfold emailStep
  rw [if_pos h]

theorem no_ws_of_foldl_accept (l : List Char) :
    ∀ q : Nat, l.foldl emailStep q = 5 → ∀ c ∈ l, jsWhitespace c = false := by
  induction l with
  | nil => intro q _ c hc; cases hc
  | cons a rest ih =>
      intro q hq c hc
      rw [List.foldl_cons] at hq
      have hws : jsWhitespace a = false := by
        cases hb : jsWhitespace a
        · rfl
        · rw [emailStep_ws q a hb, foldl_emailStep_dead] at hq
          cases hq
      rcases List.mem_cons.mp hc with hca | hcr
      · rw [hca]; exact hws
      · exact ih (emailStep q a) hq c hcr

theorem no_ws_of_match (l : List Char) (h : matchesEmailRegex l = true) :
    ∀ c ∈ l, jsWhitespace c = false := by
  unfold matchesEmailRegex at h
  exact no_ws_of_foldl_accept l 0 (by simpa using h)

theorem dropWhile_eq_self (p : Char → Bool) (l : List Char)
    (h : ∀ c ∈ l, p c = false) : l.dropWhile p = l := by
  cases l with
  | nil => rfl
  | cons a rest =>
      rw [List.dropWhile_cons, h a (List.mem_cons_self a rest)]
      simp

theorem jsTrim_eq_self (l : List Char)
    (h : ∀ c ∈ l, jsWhitespace c = false) : jsTrim l = l := by
  unfold jsTrim
  rw [dropWhile_eq_self _ _ h, dropWhile_eq_self, List.reverse_reverse]
  intro c hc
  exact h c (List.mem_reverse.mp hc)

end Validation

open Carousel Validation

/-- C1: for every slide count N ≥ 1, starting at index 0 with the
transition lock free and released between calls, after k calls to
`navigate('next')` the current index equals k mod N, and after k calls to
`navigate('prev')` it equals (-k) mod N (always non-negative, wrapping at
0); the index always lies in [0, N-1]. -/
theorem C1_navigate_wraps_mod (N k : Nat) (hN : 1 ≤ N) :
    ((stepNav Direction.next)^[k] (initCarousel N)).currentIndex
        = (k : Int) % (N : Int) ∧
    ((stepNav Direction.prev)^[k] (initCarousel N)).currentIndex
        = (-(k : Int)) % (N : Int) ∧
    (0 ≤ ((stepNav Direction.next)^[k] (initCarousel N)).currentIndex ∧
      ((stepNav Direction.next)^[k] (initCarousel N)).currentIndex < (N : Int)) ∧
    (0 ≤ ((stepNav Direction.prev)^[k] (initCarousel N)).currentIndex ∧
      ((stepNav Direction.prev)^[k] (initCarousel N)).currentIndex < (N : Int)) := by
  have hN' : (0 : Int) < (N : Int) := by exact_mod_cast hN
  obtain ⟨hn, _, _⟩ := iterNext_fields N k hN
  obtain ⟨hp, _, _⟩ := iterPrev_fields N k hN
  refine ⟨hn, hp, ⟨?_, ?_⟩, ⟨?_, ?_⟩⟩
  · rw [hn]; exact Int.emod_nonneg _ (ne_of_gt hN')
  · rw [hn]; exact Int.emod_lt_of_pos _ hN'
  · rw [hp]; exact Int.emod_nonneg _ (ne_of_gt hN')
  · rw [hp]; exact Int.emod_lt_of_pos _ hN'

/-- Witness for C1 at N = 3, k = 5. -/
theorem C1_navigate_wraps_mod_witness :
    ((stepNav Direction.next)^[5] (initCarousel 3)).currentIndex = (5 : Int) % 3 ∧
    ((stepNav Direction.prev)^[5] (initCarousel 3)).currentIndex = (-(5 : Int)) % 3 :=
  ⟨(C1_navigate_wraps_mod 3 5 (by decide)).1,
   (C1_navigate_wraps_mod 3 5 (by decide)).2.1⟩

/-- C2: while the transition lock is held (within the 350-unit window
after a navigation that acquired it), any further `navigate` or
`goToSlide` call has no effect at all on the state. -/
theorem C2_transition_lock_blocks (s : CarouselState) (d d' : Direction)
    (i : Int) (dt : Nat)
    (hT : s.isTransitioning = false)
    (hA : (navigate s d).isTransitioning = true)
    (hdt : dt < transitionDuration) :
    navigate (elapse (navigate s d) dt) d' = elapse (navigate s d) dt ∧
    goToSlide (elapse (navigate s d) dt) i = elapse (navigate s d) dt := by
  obtain ⟨hu, ht⟩ := navigate_lock_acquired s d hT hA
  rw [elapse_nofire (navigate s d) dt (s.time + transitionDuration) hu
        (by rw [ht]; omega)]
  exact ⟨navigate_locked _ d' hA, goToSlide_locked _ i hA⟩

/-- Witness for C2: a second navigation 100 units after the first one is a
no-op on the 3-slide carousel. -/
theorem C2_transition_lock_blocks_witness :
    navigate (elapse (navigate (initCarousel 3) Direction.next) 100) Direction.next
      = elapse (navigate (initCarousel 3) Direction.next) 100 ∧
    goToSlide (elapse (navigate (initCarousel 3) Direction.next) 100) 2
      = elapse (navigate (initCarousel 3) Direction.next) 100 :=
  C2_transition_lock_blocks (initCarousel 3) Direction.next Direction.next 2 100
    (by decide) (by decide) (by decide)

/-- C3: for every index outside [0, N-1], `goToSlide` returns with the
whole state (current index, lock, indicator and slide attributes)
unchanged, without throwing. -/
theorem C3_goToSlide_invalid_noop (s : CarouselState) (i : Int)
    (h : i < 0 ∨ (s.numSlides : Int) ≤ i) : goToSlide s i = s :=
  goToSlide_invalid s i h

/-- Witness for C3 at index 5 on the 3-slide carousel. -/
theorem C3_goToSlide_invalid_noop_witness :
    goToSlide (initCarousel 3) 5 = initCarousel 3 :=
  C3_goToSlide_invalid_noop (initCarousel 3) 5 (Or.inr (by decide))

/-- C5: at most one auto-rotate timer is ever live: `startAutoRotate`
cancels before scheduling, two successive starts leave exactly one live
timer and a single pause cancels all rotation; `pauseAutoRotate` with no
timer is a no-op that leaves the state unchanged, and pausing twice equals
pausing once. -/
theorem C5_single_timer (s : CarouselState) (h : wellTimed s) :
    wellTimed (startAutoRotate s) ∧
    (startAutoRotate (startAutoRotate s)).activeIntervals.length = 1 ∧
    (s.autoRotateInterval = none → pauseAutoRotate s = s) ∧
    pauseAutoRotate (pauseAutoRotate s) = pauseAutoRotate s ∧
    (pauseAutoRotate (startAutoRotate (startAutoRotate s))).activeIntervals = [] := by
  obtain ⟨h1, _⟩ := startAutoRotate_wellTimed s h
  obtain ⟨h2, h3⟩ := startAutoRotate_wellTimed _ h1
  exact ⟨h1, h3, fun hn => pauseAutoRotate_none s hn, pauseAutoRotate_idem s,
         pauseAutoRotate_cleared _ h2⟩

/-- Witness for C5 on the freshly initialized 3-slide carousel. -/
theorem C5_single_timer_witness :
    wellTimed (startAutoRotate (initCarousel 3)) ∧
    (startAutoRotate (startAutoRotate (initCarousel 3))).activeIntervals.length = 1 :=
  ⟨(C5_single_timer (initCarousel 3) rfl).1,
   (C5_single_timer (initCarousel 3) rfl).2.1⟩

/-- C7: if the container lacks a track or its slide list is empty, the
constructor reports the missing elements and never initializes (no
listeners, no timer, no accessibility updates), without throwing. -/
theorem C7_missing_elements_abort (inp : ContainerInput)
    (hp : inp.present = true)
    (h : inp.hasTrack = false ∨ inp.numSlides = 0) :
    construct inp = ConstructResult.missingElements := by
  unfold construct
  rw [if_neg (by rw [hp]; simp), if_pos h]

/-- Witness for C7: a container with three slides but no track aborts. -/
theorem C7_missing_elements_abort_witness :
    construct ⟨true, false, 3, 3, true, true, false⟩
      = ConstructResult.missingElements :=
  C7_missing_elements_abort ⟨true, false, 3, 3, true, true, false⟩ rfl (Or.inl rfl)

namespace Carousel

theorem goToSlide_offset_invariant (s : CarouselState) (i : Int)
    (hinv : s.trackOffset = -s.currentIndex * 100) :
    (goToSlide s i).trackOffset = -(goToSlide s i).currentIndex * 100 := by
  by_cases h1 : s.isTransitioning = true ∨ i = s.currentIndex
  · have : goToSlide s i = s := by unfold goToSlide; rw [if_pos h1]
    rw [this]; exact hinv
  · by_cases h2 : i < 0 ∨ (s.numSlides : Int) ≤ i
    · rw [goToSlide_invalid s i h2]; exact hinv
    · push_neg at h1 h2
      have hT : s.isTransitioning = false := by
        cases hb : s.isTransitioning
        · rfl
        · exact absurd hb h1.1
      obtain ⟨hc, _, _, _, _, _, ho⟩ :=
        goToSlide_success_fields s i hT h1.2 h2.1 h2.2
      rw [hc, ho]

theorem navigate_offset_invariant (s : CarouselState) (d : Direction)
    (hinv : s.trackOffset = -s.currentIndex * 100) :
    (navigate s d).trackOffset = -(navigate s d).currentIndex * 100 := by
  cases hb : s.isTransitioning
  · rw [navigate_unlocked s d hb]
    exact goToSlide_offset_invariant s _ hinv
  · rw [navigate_locked s d hb]
    exact hinv

end Carousel

/-- C4: after construction and after every navigation, exactly one slide —
the one at the current index — is visible to assistive technology (others
`aria-hidden`), and exactly one indicator — the one at the current index —
is selected and keyboard-focusable (`tabindex` 0), all others unselected
with `tabindex` -1. -/
theorem C4_accessibility_sync :
    (∀ (inp : ContainerInput) (s0 : CarouselState),
        construct inp = ConstructResult.initialized s0 →
        validIndex s0 ∧ slidesSynced s0 ∧ indicatorsSynced s0) ∧
    (∀ (s : CarouselState) (d : Direction) (i : Int),
        s.numIndicators = s.numSlides →
        validIndex s → slidesSynced s → indicatorsSynced s →
        (validIndex (navigate s d) ∧ slidesSynced (navigate s d) ∧
            indicatorsSynced (navigate s d)) ∧
        (validIndex (goToSlide s i) ∧ slidesSynced (goToSlide s i) ∧
            indicatorsSynced (goToSlide s i))) := by
  constructor
  · intro inp s0 h
    obtain ⟨hp, htk, hns, hd, hs0⟩ := construct_initialized_inv inp s0 h
    subst hs0
    refine ⟨?_, slidesSynced_updateAccessibility _, indicatorsSynced_initController inp⟩
    unfold validIndex
    rw [initController_currentIndex, initController_numSlides]
    refine ⟨?_, ?_⟩
    · show (0 : Int) ≤ 0
      exact le_refl 0
    · show (0 : Int) < ((inp.numSlides : Nat) : Int)
      omega
  · intro s d i hnum hv hs hi
    exact ⟨synced_navigate s d hnum hv hs hi, synced_goToSlide s i hnum hv hs hi⟩

/-- Witness for C4 on the freshly constructed 3-slide carousel. -/
theorem C4_accessibility_sync_witness :
    validIndex (initCarousel 3) ∧ slidesSynced (initCarousel 3) ∧
    indicatorsSynced (initCarousel 3) :=
  C4_accessibility_sync.1 ⟨true, true, 3, 3, true, true, false⟩ (initCarousel 3) rfl

/-- C6: a completed horizontal gesture (touch swipe or mouse drag) with
net displacement strictly over 50 triggers exactly one navigation — next
for leftward motion (start minus end positive), previous for rightward —
and a displacement at or below 50 triggers none. -/
theorem C6_gesture_threshold (s : CarouselState) (d : DragState) :
    (swipeThreshold < (s.touchStartX - s.touchEndX).natAbs →
        (0 < s.touchStartX - s.touchEndX →
            handleTouchEnd s = startAutoRotate (navigate s Direction.next)) ∧
        (s.touchStartX - s.touchEndX < 0 →
            handleTouchEnd s = startAutoRotate (navigate s Direction.prev))) ∧
    ((s.touchStartX - s.touchEndX).natAbs ≤ swipeThreshold →
        handleTouchEnd s = startAutoRotate s) ∧
    (d.isDragging = true →
        (dragThreshold < (d.startX - d.currentX).natAbs →
            (0 < d.startX - d.currentX →
                handleMouseUp d s = ({ d with isDragging := false },
                  startAutoRotate
                    (navigate { s with trackCursor := "grab" } Direction.next))) ∧
            (d.startX - d.currentX < 0 →
                handleMouseUp d s = ({ d with isDragging := false },
                  startAutoRotate
                    (navigate { s with trackCursor := "grab" } Direction.prev)))) ∧
        ((d.startX - d.currentX).natAbs ≤ dragThreshold →
            handleMouseUp d s = ({ d with isDragging := false },
              startAutoRotate { s with trackCursor := "grab" }))) := by
  refine ⟨fun hgt => ⟨fun hpos => ?_, fun hneg => ?_⟩, fun hle => ?_,
          fun hdrag => ⟨fun hgt => ⟨fun hpos => ?_, fun hneg => ?_⟩, fun hle => ?_⟩⟩
  · unfold handleTouchEnd
    dsimp only
    rw [if_pos hgt, if_pos hpos]
  · unfold handleTouchEnd
    dsimp only
    rw [if_pos hgt, if_neg (by omega)]
  · unfold handleTouchEnd
    dsimp only
    rw [if_neg (by omega)]
  · unfold handleMouseUp
    rw [if_neg (by rw [hdrag]; simp)]
    dsimp only
    rw [if_pos hgt, if_pos hpos]
  · unfold handleMouseUp
    rw [if_neg (by rw [hdrag]; simp)]
    dsimp only
    rw [if_pos hgt, if_neg (by omega)]
  · unfold handleMouseUp
    rw [if_neg (by rw [hdrag]; simp)]
    dsimp only
    rw [if_neg (by omega)]

/-- Witness for C6: the spec scenario, a touch gesture from coordinate 100
to coordinate 40 (net 60 > 50) navigates next, and a mouse drag from 100
to 70 (net 30 ≤ 50) does not navigate. -/
theorem C6_gesture_threshold_witness :
    handleTouchEnd (handleTouchMove (handleTouchStart (initCarousel 3) 100) 40)
      = startAutoRotate
          (navigate (handleTouchMove (handleTouchStart (initCarousel 3) 100) 40)
            Direction.next) ∧
    handleMouseUp ⟨true, 100, 70⟩ (initCarousel 3)
      = (⟨false, 100, 70⟩,
         startAutoRotate { initCarousel 3 with trackCursor := "grab" }) :=
  ⟨((C6_gesture_threshold
        (handleTouchMove (handleTouchStart (initCarousel 3) 100) 40)
        ⟨true, 100, 70⟩).1 (by decide)).1 (by decide),
   ((C6_gesture_threshold (initCarousel 3) ⟨true, 100, 70⟩).2.2 rfl).2 (by decide)⟩

/-- C8: when `goToSlide(index)` succeeds it applies the visual offset
-index * 100 to the track and makes `index` current, and after any
`goToSlide` or `navigate` call the track transform stays proportional to
the current index. -/
theorem C8_track_transform (s : CarouselState) (i : Int) (d : Direction) :
    (s.isTransitioning = false → i ≠ s.currentIndex → 0 ≤ i →
        i < (s.numSlides : Int) →
        (goToSlide s i).trackOffset = -i * 100 ∧
        (goToSlide s i).currentIndex = i) ∧
    (s.trackOffset = -s.currentIndex * 100 →
        (goToSlide s i).trackOffset = -(goToSlide s i).currentIndex * 100 ∧
        (navigate s d).trackOffset = -(navigate s d).currentIndex * 100) := by
  constructor
  · intro hT hne h0 hlt
    obtain ⟨h1, _, _, _, _, _, h7⟩ := goToSlide_success_fields s i hT hne h0 hlt
    exact ⟨h7, h1⟩
  · intro hinv
    exact ⟨goToSlide_offset_invariant s i hinv, navigate_offset_invariant s d hinv⟩

/-- Witness for C8: jumping to slide 2 of 3 sets the transform to -200
percent. -/
theorem C8_track_transform_witness :
    (goToSlide (initCarousel 3) 2).trackOffset = -2 * 100 ∧
    (goToSlide (initCarousel 3) 2).currentIndex = 2 :=
  (C8_track_transform (initCarousel 3) 2 Direction.next).1
    (by decide) (by decide) (by decide) (by decide)

/-- C9: `validateEmail` accepts "a@b.co"; rejects "" with the required
message; rejects "nope" with the invalid-format message; and rejects every
pattern-matching string of length 255 with the too-long message. -/
theorem C9_validateEmail_cases :
    validateEmail "a@b.co".toList = ⟨true, ""⟩ ∧
    validateEmail "".toList = ⟨false, msgRequired⟩ ∧
    validateEmail "nope".toList = ⟨false, msgInvalid⟩ ∧
    (∀ l : List Char, l.length = 255 → matchesEmailRegex l = true →
        validateEmail l = ⟨false, msgTooLong⟩) := by
  refine ⟨by decide, by decide, by decide, ?_⟩
  intro l hlen hm
  have htrim : jsTrim l = l := jsTrim_eq_self l (no_ws_of_match l hm)
  have hisEmpty : l.isEmpty = false := by
    cases l with
    | nil => cases hlen
    | cons a t => rfl
  unfold validateEmail
  rw [htrim, hisEmpty]
  simp only [Bool.or_self, Bool.false_eq_true, if_false, hlen]
  rw [if_neg (by unfold emailMinLength; omega), if_pos (by unfold emailMaxLength; omega)]

namespace Validation

theorem foldl_emailStep_replicate (n : Nat) :
    (List.replicate n 'c').foldl emailStep 5 = 5 := by
  induction n with
  | zero => rfl
  | succ m ih =>
      rw [List.replicate_succ, List.foldl_cons,
          show emailStep 5 'c' = 5 from by decide]
      exact ih

theorem length_longEmail :
    ('a' :: '@' :: 'b' :: '.' :: List.replicate 251 'c').length = 255 := by
  rw [List.length_cons, List.length_cons, List.length_cons, List.length_cons,
      List.length_replicate]

theorem matches_longEmail :
    matchesEmailRegex ('a' :: '@' :: 'b' :: '.' :: List.replicate 251 'c') = true := by
  unfold matchesEmailRegex
  rw [List.foldl_cons, List.foldl_cons, List.foldl_cons, List.foldl_cons,
      show emailStep 0 'a' = 1 from by decide]
  rw [show emailStep 1 '@' = 2 from by decide,
      show emailStep 2 'b' = 3 from by decide,
      show emailStep 3 '.' = 4 from by decide,
      show (251 : Nat) = 250 + 1 from rfl, List.replicate_succ, List.foldl_cons,
      show emailStep 4 'c' = 5 from by decide, foldl_emailStep_replicate]
  rfl

end Validation

/-- Witness for C9: a concrete pattern-matching address of length 255 is
rejected as too long. -/
theorem C9_validateEmail_cases_witness :
    ('a' :: '@' :: 'b' :: '.' :: List.replicate 251 'c').length = 255 ∧
    matchesEmailRegex ('a' :: '@' :: 'b' :: '.' :: List.replicate 251 'c') = true ∧
    validateEmail ('a' :: '@' :: 'b' :: '.' :: List.replicate 251 'c')
      = ⟨false, msgTooLong⟩ :=
  ⟨length_longEmail, matches_longEmail,
   C9_validateEmail_cases.2.2.2 _ length_longEmail matches_longEmail⟩

/-- C10: `sanitizeInput` always returns a string free of angle brackets of
length at most 254, and returns the empty string on every non-string
input. -/
theorem C10_sanitize_bounds :
    (∀ v : JSValue,
        (sanitizeInput v).all (fun c => !(c == '<' || c == '>')) = true ∧
        (sanitizeInput v).length ≤ emailMaxLength) ∧
    sanitizeInput JSValue.nonString = [] := by
  refine ⟨?_, rfl⟩
  intro v
  cases v with
  | nonString => exact ⟨rfl, by decide⟩
  | str s =>
      unfold sanitizeInput
      dsimp only
      constructor
      · rw [List.all_eq_true]
        intro c hc
        have hc2 : c ∈ List.filter (fun c => !(c == '<' || c == '>')) (jsTrim s) :=
          List.mem_of_mem_take hc
        exact (List.mem_filter.mp hc2).2
      · exact List.length_take_le _ _
